import Mathlib

/-!
Verification of the kinship relationship resolver.

The development shallowly embeds the resolver: token normalization
(whitespace trim, ASCII lowercasing, alias lookup), the single
left-to-right structural scan accumulating generation counters, the
gender signal, and the ordered classification rules producing the final
labelled result.
-/

namespace Kinship

/-- Association list mapping each ASCII uppercase letter to its lowercase
counterpart; models the lowercasing performed by the source via
`str.lower()` on token characters. -/
def lowerPairs : List (Char × Char) :=
  [('A', 'a'), ('B', 'b'), ('C', 'c'), ('D', 'd'), ('E', 'e'), ('F', 'f'),
   ('G', 'g'), ('H', 'h'), ('I', 'i'), ('J', 'j'), ('K', 'k'), ('L', 'l'),
   ('M', 'm'), ('N', 'n'), ('O', 'o'), ('P', 'p'), ('Q', 'q'), ('R', 'r'),
   ('S', 's'), ('T', 't'), ('U', 'u'), ('V', 'v'), ('W', 'w'), ('X', 'x'),
   ('Y', 'y'), ('Z', 'z')]

/-- Lowercase a single character (identity outside uppercase ASCII letters). -/
def asciiLower (c : Char) : Char :=
  (lowerPairs.lookup c).getD c

/-- Whitespace characters removed by the source via `str.strip()`. -/
def isSpaceChar (c : Char) : Bool :=
  c == ' ' || c == '\t' || c == '\n' || c == '\r' || c == '\x0b' || c == '\x0c'

/-- Remove leading and trailing whitespace characters, as `str.strip()`. -/
def stripChars (l : List Char) : List Char :=
  (l.dropWhile isSpaceChar).rdropWhile isSpaceChar

/-- Model of `tok.strip().lower()` from `_normalize_token`. -/
def pyStripLower (s : String) : String :=
  String.mk ((stripChars s.data).map asciiLower)

/-- Alias table of `_normalize_token`, in source order. -/
def aliases : List (String × String) :=
  [("mom", "mother"), ("mum", "mother"), ("dad", "father"), ("boy", "son"),
   ("girl", "daughter"), ("man", "husband"), ("woman", "wife"),
   ("bro", "brother"), ("sis", "sister"), ("parents", "parent"),
   ("kids", "child"), ("child", "child"), ("son", "son"),
   ("daughter", "daughter"), ("spouse", "spouse"), ("wife", "wife"),
   ("husband", "husband"), ("mother", "mother"), ("father", "father"),
   ("parent", "parent"), ("brother", "brother"), ("sister", "sister"),
   ("sibling", "sibling")]

/-- Normalize one raw token: trim, lowercase, then alias lookup with the
trimmed/lowercased string as the default (`aliases.get(t, t)`). -/
def _normalize_token (tok : String) : String :=
  match aliases.lookup (pyStripLower tok) with
  | some c => c
  | none => pyStripLower tok

/-- Model of `_pluralize` from the source. -/
def _pluralize (base : String) (n : Nat) : String :=
  if n = 1 then base else base ++ "s"

/-- Gender values carried by `final_gender` (`None` is `Option.none`). -/
inductive Gender
  | male
  | female
deriving DecidableEq, Repr

/-- Accumulated state of the structural scan: the four counters and the
gender signal. -/
structure ScanState where
  up : Nat
  down : Nat
  lateral : Nat
  affinity : Bool
  finalGender : Option Gender
deriving DecidableEq, Repr

/-- Initial scan state (all counters zero, no marriage edge, no gender). -/
def initState : ScanState :=
  { up := 0, down := 0, lateral := 0, affinity := false, finalGender := none }

/-- Membership in the parent-type token set. -/
def isUpTok (t : String) : Bool :=
  t == "mother" || t == "father" || t == "parent"

/-- Membership in the child-type token set. -/
def isDownTok (t : String) : Bool :=
  t == "son" || t == "daughter" || t == "child"

/-- Membership in the sibling-type token set. -/
def isSibTok (t : String) : Bool :=
  t == "brother" || t == "sister" || t == "sibling"

/-- Membership in the spouse-type token set. -/
def isSpouseTok (t : String) : Bool :=
  t == "spouse" || t == "husband" || t == "wife"

/-- One iteration of the token-processing loop of `compute_relationship`. -/
def stepToken (st : ScanState) (tok : String) : ScanState :=
  if isUpTok tok then
    { st with up := st.up + 1,
              finalGender :=
                if tok == "mother" then some Gender.female
                else if tok == "father" then some Gender.male
                else none }
  else if isDownTok tok then
    { st with down := st.down + 1,
              finalGender :=
                if tok == "son" then some Gender.male
                else if tok == "daughter" then some Gender.female
                else none }
  else if isSibTok tok then
    { st with up := st.up + 1, down := st.down + 1, lateral := st.lateral + 1,
              finalGender :=
                if tok == "brother" then some Gender.male
                else if tok == "sister" then some Gender.female
                else none }
  else if isSpouseTok tok then
    { st with affinity := true,
              finalGender :=
                if tok == "husband" then some Gender.male
                else if tok == "wife" then some Gender.female
                else none }
  else st

/-- The whole scan loop over an already-normalized token sequence. -/
def scanSteps (steps : List String) : ScanState :=
  steps.foldl stepToken initState

/-- Model of the inner `gendered` helper closure. -/
def gendered (g : Option Gender) (masculine feminine neutral : String) : String :=
  match g with
  | some Gender.male => masculine
  | some Gender.female => feminine
  | none => neutral

/-- Repeat a string `n` times, as the Python expression `s * n`. -/
def strRepeat (n : Nat) (s : String) : String :=
  match n with
  | 0 => ""
  | m + 1 => s ++ strRepeat m s

/-- Model of `ordinals.get(degree, str(degree) + "th")` from the cousin rule. -/
def ordinalsGet (d : Nat) : String :=
  if d = 1 then "first"
  else if d = 2 then "second"
  else if d = 3 then "third"
  else if d = 4 then "fourth"
  else if d = 5 then "fifth"
  else if d = 6 then "sixth"
  else Nat.repr d ++ "th"

/-- Serialized structural summary, `str(canonical)` in the source. -/
def canonicalStr (st : ScanState) : String :=
  "\x7b\x27up\x27: " ++ Nat.repr st.up ++ ", \x27down\x27: " ++ Nat.repr st.down ++
    ", \x27lateral\x27: " ++ Nat.repr st.lateral ++ ", \x27affinal\x27: " ++
    (if st.affinity then "True" else "False") ++ "\x7d"

/-- Output record of the resolver. -/
structure RelationshipResult where
  label : String
  type : String
  explanation : String
  canonical : String
deriving DecidableEq, Repr

/-- Guard of the direct-spouse rule: the (normalized) sequence is nonempty,
its last token is a spouse-type token and its length is exactly 1. -/
def checkDirectSpouse (steps : List String) : Bool :=
  (steps.getLast?).any isSpouseTok && (steps.length == 1)

/-- Guard of the sibling-in-law rule: the (normalized) sequence is nonempty
and its last token is a sibling-type token. -/
def checkSibLast (steps : List String) : Bool :=
  (steps.getLast?).any isSibTok

/-- Ordered classification rules of `compute_relationship` after the scan:
maps the normalized steps and accumulated state to the result record. -/
def classify (steps : List String) (st : ScanState) : RelationshipResult :=
  if checkDirectSpouse steps then
    { label := gendered st.finalGender "husband" "wife" "spouse"
      type := "affinal"
      explanation := "Direct marital relation."
      canonical := canonicalStr st }
  else if st.down = 0 ∧ 0 < st.up ∧ st.affinity = false then
    { label :=
        if st.up = 1 then gendered st.finalGender "father" "mother" "parent"
        else if st.up = 2 then
          gendered st.finalGender "grandfather" "grandmother" "grandparent"
        else
          gendered st.finalGender
            (strRepeat (st.up - 2) "great-" ++ "grandfather")
            (strRepeat (st.up - 2) "great-" ++ "grandmother")
            (strRepeat (st.up - 2) "great-" ++ "grandparent")
      type := "blood"
      explanation := "Direct ancestor."
      canonical := canonicalStr st }
  else if st.up = 0 ∧ 0 < st.down ∧ st.affinity = false then
    { label :=
        if st.down = 1 then gendered st.finalGender "son" "daughter" "child"
        else if st.down = 2 then
          gendered st.finalGender "grandson" "granddaughter" "grandchild"
        else
          gendered st.finalGender
            (strRepeat (st.down - 2) "great-" ++ "grandson")
            (strRepeat (st.down - 2) "great-" ++ "granddaughter")
            (strRepeat (st.down - 2) "great-" ++ "grandchild")
      type := "blood"
      explanation := "Direct descendant."
      canonical := canonicalStr st }
  else if st.up = 1 ∧ st.down = 1 ∧ 1 ≤ st.lateral ∧ st.affinity = false then
    { label := gendered st.finalGender "brother" "sister" "sibling"
      type := "blood"
      explanation := "Child of your parent (not you)."
      canonical := canonicalStr st }
  else if 2 ≤ st.up ∧ st.down = 1 ∧ st.affinity = false then
    { label :=
        if st.up - 1 = 1 then gendered st.finalGender "uncle" "aunt" "aunt/uncle"
        else
          gendered st.finalGender
            (strRepeat (st.up - 1 - 1) "great-" ++ "granduncle")
            (strRepeat (st.up - 1 - 1) "great-" ++ "grandaunt")
            (strRepeat (st.up - 1 - 1) "great-" ++ "grand-aunt/uncle")
      type := "blood"
      explanation := "Sibling of an ancestor."
      canonical := canonicalStr st }
  else if st.up = 1 ∧ 2 ≤ st.down ∧ st.affinity = false then
    { label :=
        if st.down - 1 = 1 then
          gendered st.finalGender "nephew" "niece" "niece/nephew"
        else if st.down - 1 = 2 then
          gendered st.finalGender "grandnephew" "grandniece" "grandniece/nephew"
        else
          strRepeat (st.down - 1 - 2) "great-" ++
            gendered st.finalGender "grandnephew" "grandniece" "grandniece/nephew"
      type := "blood"
      explanation := "Descendant of your sibling."
      canonical := canonicalStr st }
  else if 2 ≤ st.up ∧ 2 ≤ st.down ∧ st.affinity = false then
    { label :=
        if (((st.up : Int) - (st.down : Int)).natAbs) = 0 then
          ordinalsGet (Nat.min st.up st.down - 1) ++ " cousin"
        else
          ordinalsGet (Nat.min st.up st.down - 1) ++ " cousin " ++
            Nat.repr (((st.up : Int) - (st.down : Int)).natAbs) ++ " " ++
            _pluralize "time" (((st.up : Int) - (st.down : Int)).natAbs) ++ " removed"
      type := "blood"
      explanation := "Descended from a shared ancestor on a different branch."
      canonical := canonicalStr st }
  else if st.affinity = true then
    if checkSibLast steps then
      { label := gendered st.finalGender "brother-in-law" "sister-in-law" "sibling-in-law"
        type := "affinal"
        explanation := "Sibling of your spouse OR spouse of your sibling."
        canonical := canonicalStr st }
    else if 1 ≤ st.up ∧ st.down = 0 then
      { label :=
          if st.up = 1 then
            gendered st.finalGender "father-in-law" "mother-in-law" "parent-in-law"
          else if st.up = 2 then
            gendered st.finalGender "grandfather-in-law" "grandmother-in-law"
              "grandparent-in-law"
          else
            gendered st.finalGender
              (strRepeat (st.up - 2) "great-" ++ "grandfather-in-law")
              (strRepeat (st.up - 2) "great-" ++ "grandmother-in-law")
              (strRepeat (st.up - 2) "great-" ++ "grandparent-in-law")
        type := "affinal"
        explanation := "Ancestor of your spouse."
        canonical := canonicalStr st }
    else if st.up = 0 ∧ 1 ≤ st.down then
      { label :=
          if st.down = 1 then
            gendered st.finalGender "stepson" "stepdaughter" "stepchild"
          else if st.down = 2 then
            gendered st.finalGender "step-grandson" "step-granddaughter"
              "step-grandchild"
          else
            gendered st.finalGender
              ("step-" ++ strRepeat (st.down - 2) "great-" ++ "grandson")
              ("step-" ++ strRepeat (st.down - 2) "great-" ++ "granddaughter")
              ("step-" ++ strRepeat (st.down - 2) "great-" ++ "grandchild")
        type := "affinal"
        explanation := "Descendant of your spouse (not biologically yours)."
        canonical := canonicalStr st }
    else
      { label := "no direct relation"
        type := "none"
        explanation := "Related only by marriage through multiple links (e.g., your brother\x27s wife\x27s brother)."
        canonical := canonicalStr st }
  else if st.up = 1 ∧ st.down = 1 ∧ st.affinity = false then
    { label := "sibling (or self via parent)"
      type := "blood"
      explanation := "Ambiguous path interpreted as sibling."
      canonical := canonicalStr st }
  else
    { label := "unknown / ambiguous"
      type := "none"
      explanation := "The selected path doesn\x27t map to a common English kinship term."
      canonical := canonicalStr st }

/-- Scan state reached on a raw input after per-token normalization. -/
def scanOf (raw : List String) : ScanState :=
  scanSteps (raw.map _normalize_token)

/-- The whole resolver: normalize every raw step, run the scan, classify. -/
def compute_relationship (raw : List String) : RelationshipResult :=
  classify (raw.map _normalize_token) (scanOf raw)

/-- Key/value pairs found by a successful association-list lookup are
members of the list. -/
theorem mem_of_lookup_eq_some {α β : Type} [BEq α] [LawfulBEq α]
    {l : List (α × β)} {k : α} {v : β} (h : l.lookup k = some v) : (k, v) ∈ l := by
  obtain ⟨l₁, l₂, rfl, -⟩ := List.lookup_eq_some_iff.mp h
  exact List.mem_append.mpr (Or.inr (List.mem_cons_self _ _))

/-- Keys and values of the lowercase table are never whitespace, and its
values are fixed points of `asciiLower`. -/
theorem lowerPairs_fact :
    ∀ p ∈ lowerPairs,
      isSpaceChar p.1 = false ∧ isSpaceChar p.2 = false ∧ asciiLower p.2 = p.2 := by
  decide

/-- Lowercasing a character twice is the same as lowercasing it once. -/
theorem asciiLower_asciiLower (c : Char) : asciiLower (asciiLower c) = asciiLower c := by
  unfold asciiLower
  cases h : lowerPairs.lookup c with
  | none => simp [h]
  | some d =>
    have hd := (lowerPairs_fact _ (mem_of_lookup_eq_some h)).2.2
    simpa [asciiLower, h] using hd

/-- Lowercasing preserves whether a character is whitespace. -/
theorem isSpaceChar_asciiLower (c : Char) : isSpaceChar (asciiLower c) = isSpaceChar c := by
  unfold asciiLower
  cases h : lowerPairs.lookup c with
  | none => rfl
  | some d =>
    have h1 := (lowerPairs_fact _ (mem_of_lookup_eq_some h)).1
    have h2 := (lowerPairs_fact _ (mem_of_lookup_eq_some h)).2.1
    simp [h1, h2]

/-- Left whitespace-dropping commutes with lowercasing. -/
theorem dropWhile_map_asciiLower (l : List Char) :
    (l.map asciiLower).dropWhile isSpaceChar = (l.dropWhile isSpaceChar).map asciiLower := by
  rw [List.dropWhile_map]
  congr 2
  funext c
  exact isSpaceChar_asciiLower c

/-- Right whitespace-dropping commutes with lowercasing. -/
theorem rdropWhile_map_asciiLower (l : List Char) :
    (l.map asciiLower).rdropWhile isSpaceChar = (l.rdropWhile isSpaceChar).map asciiLower := by
  unfold List.rdropWhile
  rw [← List.map_reverse, dropWhile_map_asciiLower, ← List.map_reverse]

/-- Trimming commutes with lowercasing. -/
theorem stripChars_map_asciiLower (l : List Char) :
    stripChars (l.map asciiLower) = (stripChars l).map asciiLower := by
  unfold stripChars
  rw [dropWhile_map_asciiLower, rdropWhile_map_asciiLower]

/-- Removing trailing whitespace from a list with no leading whitespace
leaves a list with no leading whitespace. -/
theorem dropWhile_rdropWhile_self (p : Char → Bool) (l : List Char) :
    ((l.dropWhile p).rdropWhile p).dropWhile p = (l.dropWhile p).rdropWhile p := by
  cases hr : (l.dropWhile p).rdropWhile p with
  | nil => rfl
  | cons a t =>
    have hpre := List.rdropWhile_prefix p (l.dropWhile p)
    rw [hr] at hpre
    obtain ⟨r, hr2⟩ := hpre
    have hh := List.head?_dropWhile_not p l
    rw [← hr2] at hh
    simp only [List.cons_append, List.head?_cons] at hh
    simp [List.dropWhile_cons, hh]

/-- Trimming is idempotent. -/
theorem stripChars_stripChars (l : List Char) : stripChars (stripChars l) = stripChars l := by
  unfold stripChars
  rw [dropWhile_rdropWhile_self, List.rdropWhile_idempotent]

/-- The trim-then-lowercase operation is idempotent. -/
theorem pyStripLower_pyStripLower (s : String) :
    pyStripLower (pyStripLower s) = pyStripLower s := by
  show String.mk ((stripChars ((stripChars s.data).map asciiLower)).map asciiLower) = _
  apply congrArg String.mk
  rw [stripChars_map_asciiLower, stripChars_stripChars, List.map_map]
  exact List.map_congr_left fun a _ => asciiLower_asciiLower a

/-- Every value of the alias table is a fixed point of normalization. -/
theorem aliases_values_fixed : ∀ p ∈ aliases, _normalize_token p.2 = p.2 := by
  decide

/-- Parent-type tokens are not spouse-type tokens. -/
theorem isSpouseTok_of_isUpTok {t : String} (h : isUpTok t = true) :
    isSpouseTok t = false := by
  simp only [isUpTok, Bool.or_eq_true, beq_iff_eq] at h
  rcases h with (rfl | rfl) | rfl <;> rfl

/-- Child-type tokens are not spouse-type tokens. -/
theorem isSpouseTok_of_isDownTok {t : String} (h : isDownTok t = true) :
    isSpouseTok t = false := by
  simp only [isDownTok, Bool.or_eq_true, beq_iff_eq] at h
  rcases h with (rfl | rfl) | rfl <;> rfl

/-- Sibling-type tokens are not spouse-type tokens. -/
theorem isSpouseTok_of_isSibTok {t : String} (h : isSibTok t = true) :
    isSpouseTok t = false := by
  simp only [isSibTok, Bool.or_eq_true, beq_iff_eq] at h
  rcases h with (rfl | rfl) | rfl <;> rfl

/-- One scan step sets the affinity flag exactly on spouse-type tokens. -/
theorem stepToken_affinity (st : ScanState) (t : String) :
    (stepToken st t).affinity = (st.affinity || isSpouseTok t) := by
  unfold stepToken
  by_cases h1 : isUpTok t = true
  · simp [h1, isSpouseTok_of_isUpTok h1]
  · by_cases h2 : isDownTok t = true
    · simp [h1, h2, isSpouseTok_of_isDownTok h2]
    · by_cases h3 : isSibTok t = true
      · simp [h1, h2, h3, isSpouseTok_of_isSibTok h3]
      · by_cases h4 : isSpouseTok t = true
        · simp [h1, h2, h3, h4]
        · simp [h1, h2, h3, h4]

/-- The affinity flag after the scan is true exactly when some processed
token is a spouse-type token (it is monotone during the scan). -/
theorem scan_affinity (l : List String) (st : ScanState) :
    (l.foldl stepToken st).affinity = (st.affinity || l.any isSpouseTok) := by
  induction l generalizing st with
  | nil => simp
  | cons t l ih =>
    rw [List.foldl_cons, ih, stepToken_affinity]
    simp [List.any_cons, Bool.or_assoc]

/-- Any spouse-type token among the scanned steps makes affinity true. -/
theorem affinity_of_mem_spouse {steps : List String} {t : String}
    (hmem : t ∈ steps) (hsp : isSpouseTok t = true) :
    (scanSteps steps).affinity = true := by
  unfold scanSteps
  rw [scan_affinity]
  simp only [initState, Bool.false_or, List.any_eq_true]
  exact ⟨t, hmem, hsp⟩

/-- When the scan reports no marriage edge, the direct-spouse guard fails. -/
theorem checkDirectSpouse_false_of_not_affinity {steps : List String}
    (h : (scanSteps steps).affinity = false) : checkDirectSpouse steps = false := by
  unfold checkDirectSpouse
  cases hl : steps.getLast? with
  | none => rfl
  | some t =>
    cases hsp : isSpouseTok t with
    | false => simp [hsp]
    | true =>
      have := affinity_of_mem_spouse (List.mem_of_getLast?_eq_some hl) hsp
      simp [this] at h

/-- Result type as a function of the accumulated four-tuple and the two
last-token checks, following the branch order of the classifier. -/
def typeOfShape (u d lat : Nat) (aff b1 b2 : Bool) : String :=
  if b1 then "affinal"
  else if d = 0 ∧ 0 < u ∧ aff = false then "blood"
  else if u = 0 ∧ 0 < d ∧ aff = false then "blood"
  else if u = 1 ∧ d = 1 ∧ 1 ≤ lat ∧ aff = false then "blood"
  else if 2 ≤ u ∧ d = 1 ∧ aff = false then "blood"
  else if u = 1 ∧ 2 ≤ d ∧ aff = false then "blood"
  else if 2 ≤ u ∧ 2 ≤ d ∧ aff = false then "blood"
  else if aff = true then
    if b2 then "affinal"
    else if 1 ≤ u ∧ d = 0 then "affinal"
    else if u = 0 ∧ 1 ≤ d then "affinal"
    else "none"
  else if u = 1 ∧ d = 1 ∧ aff = false then "blood"
  else "none"

/-- The type field of the classification depends only on the accumulated
four-tuple and the two last-token checks. -/
theorem classify_type (steps : List String) (st : ScanState) :
    (classify steps st).type =
      typeOfShape st.up st.down st.lateral st.affinity
        (checkDirectSpouse steps) (checkSibLast steps) := by
  unfold classify typeOfShape
  by_cases h1 : checkDirectSpouse steps = true
  · rw [if_pos h1, if_pos h1]
  rw [if_neg h1, if_neg h1]
  by_cases h2 : st.down = 0 ∧ 0 < st.up ∧ st.affinity = false
  · rw [if_pos h2, if_pos h2]
  rw [if_neg h2, if_neg h2]
  by_cases h3 : st.up = 0 ∧ 0 < st.down ∧ st.affinity = false
  · rw [if_pos h3, if_pos h3]
  rw [if_neg h3, if_neg h3]
  by_cases h4 : st.up = 1 ∧ st.down = 1 ∧ 1 ≤ st.lateral ∧ st.affinity = false
  · rw [if_pos h4, if_pos h4]
  rw [if_neg h4, if_neg h4]
  by_cases h5 : 2 ≤ st.up ∧ st.down = 1 ∧ st.affinity = false
  · rw [if_pos h5, if_pos h5]
  rw [if_neg h5, if_neg h5]
  by_cases h6 : st.up = 1 ∧ 2 ≤ st.down ∧ st.affinity = false
  · rw [if_pos h6, if_pos h6]
  rw [if_neg h6, if_neg h6]
  by_cases h7 : 2 ≤ st.up ∧ 2 ≤ st.down ∧ st.affinity = false
  · rw [if_pos h7, if_pos h7]
  rw [if_neg h7, if_neg h7]
  by_cases h8 : st.affinity = true
  · rw [if_pos h8, if_pos h8]
    by_cases h8a : checkSibLast steps = true
    · rw [if_pos h8a, if_pos h8a]
    rw [if_neg h8a, if_neg h8a]
    by_cases h8b : 1 ≤ st.up ∧ st.down = 0
    · rw [if_pos h8b, if_pos h8b]
    rw [if_neg h8b, if_neg h8b]
    by_cases h8c : st.up = 0 ∧ 1 ≤ st.down
    · rw [if_pos h8c, if_pos h8c]
    rw [if_neg h8c, if_neg h8c]
  · rw [if_neg h8, if_neg h8]
    by_cases h9 : st.up = 1 ∧ st.down = 1 ∧ st.affinity = false
    · rw [if_pos h9, if_pos h9]
    rw [if_neg h9, if_neg h9]

/-- Every value of `typeOfShape` lies in the three-element type vocabulary. -/
theorem typeOfShape_mem (u d lat : Nat) (aff b1 b2 : Bool) :
    typeOfShape u d lat aff b1 b2 = "blood" ∨ typeOfShape u d lat aff b1 b2 = "affinal" ∨
      typeOfShape u d lat aff b1 b2 = "none" := by
  unfold typeOfShape
  by_cases h1 : b1 = true
  · rw [if_pos h1]; exact Or.inr (Or.inl rfl)
  rw [if_neg h1]
  by_cases h2 : d = 0 ∧ 0 < u ∧ aff = false
  · rw [if_pos h2]; exact Or.inl rfl
  rw [if_neg h2]
  by_cases h3 : u = 0 ∧ 0 < d ∧ aff = false
  · rw [if_pos h3]; exact Or.inl rfl
  rw [if_neg h3]
  by_cases h4 : u = 1 ∧ d = 1 ∧ 1 ≤ lat ∧ aff = false
  · rw [if_pos h4]; exact Or.inl rfl
  rw [if_neg h4]
  by_cases h5 : 2 ≤ u ∧ d = 1 ∧ aff = false
  · rw [if_pos h5]; exact Or.inl rfl
  rw [if_neg h5]
  by_cases h6 : u = 1 ∧ 2 ≤ d ∧ aff = false
  · rw [if_pos h6]; exact Or.inl rfl
  rw [if_neg h6]
  by_cases h7 : 2 ≤ u ∧ 2 ≤ d ∧ aff = false
  · rw [if_pos h7]; exact Or.inl rfl
  rw [if_neg h7]
  by_cases h8 : aff = true
  · rw [if_pos h8]
    by_cases h8a : b2 = true
    · rw [if_pos h8a]; exact Or.inr (Or.inl rfl)
    rw [if_neg h8a]
    by_cases h8b : 1 ≤ u ∧ d = 0
    · rw [if_pos h8b]; exact Or.inr (Or.inl rfl)
    rw [if_neg h8b]
    by_cases h8c : u = 0 ∧ 1 ≤ d
    · rw [if_pos h8c]; exact Or.inr (Or.inl rfl)
    rw [if_neg h8c]; exact Or.inr (Or.inr rfl)
  · rw [if_neg h8]
    by_cases h9 : u = 1 ∧ d = 1 ∧ aff = false
    · rw [if_pos h9]; exact Or.inl rfl
    rw [if_neg h9]; exact Or.inr (Or.inr rfl)

/-- Tokens that carry or reset the gender signal (all recognized tokens). -/
def genderCarriers : List String :=
  ["mother", "father", "parent", "son", "daughter", "child", "brother",
   "sister", "sibling", "spouse", "husband", "wife"]

/-- Specification-side description of the gender contributed by one
carrier token: father/son/brother/husband are male, mother/daughter/sister/wife
are female, the gender-neutral tokens reset the signal to unknown. -/
def tokGenderSpec (t : String) : Option Gender :=
  if t == "father" || t == "son" || t == "brother" || t == "husband" then some Gender.male
  else if t == "mother" || t == "daughter" || t == "sister" || t == "wife" then
    some Gender.female
  else none

/-- Specification-side description of the final gender: the gender of the
last processed token that carries or resets gender, unknown when there is
no such token. -/
def lastGenderSpec (steps : List String) : Option Gender :=
  match (steps.filter fun t => decide (t ∈ genderCarriers)).getLast? with
  | some t => tokGenderSpec t
  | none => none

/-- A carrier token overwrites the gender signal with its own gender. -/
theorem stepToken_gender_carrier {t : String} (h : t ∈ genderCarriers) (st : ScanState) :
    (stepToken st t).finalGender = tokGenderSpec t := by
  fin_cases h <;> rfl

/-- An unrecognized token leaves the whole scan state unchanged. -/
theorem stepToken_unrecognized {t : String} (h : t ∉ genderCarriers) (st : ScanState) :
    stepToken st t = st := by
  simp only [genderCarriers, List.mem_cons, List.not_mem_nil, or_false, not_or] at h
  obtain ⟨n1, n2, n3, n4, n5, n6, n7, n8, n9, n10, n11, n12⟩ := h
  have hu : isUpTok t = false := by simp [isUpTok, n1, n2, n3]
  have hd : isDownTok t = false := by simp [isDownTok, n4, n5, n6]
  have hs : isSibTok t = false := by simp [isSibTok, n7, n8, n9]
  have hp : isSpouseTok t = false := by simp [isSpouseTok, n10, n11, n12]
  simp [stepToken, hu, hd, hs, hp]

/-- The gender signal after folding the scan over any suffix is that of the
last carrier token, or the incoming signal when no carrier occurs. -/
theorem foldl_finalGender (l : List String) (st : ScanState) :
    (l.foldl stepToken st).finalGender =
      match (l.filter fun t => decide (t ∈ genderCarriers)).getLast? with
      | some t => tokGenderSpec t
      | none => st.finalGender := by
  induction l generalizing st with
  | nil => rfl
  | cons t l ih =>
    rw [List.foldl_cons, ih]
    by_cases h : t ∈ genderCarriers
    · rw [List.filter_cons_of_pos (by simpa using h)]
      cases hfl : (l.filter fun t => decide (t ∈ genderCarriers)) with
      | nil => simpa using stepToken_gender_carrier h st
      | cons a L =>
        rw [List.getLast?_cons_cons]
        cases hx : (a :: L).getLast? with
        | none => simp at hx
        | some x => rfl
    · rw [List.filter_cons_of_neg (by simpa using h), stepToken_unrecognized h]

/-- C1 (counterexample): contrary to the claim, the accumulated state
up==1, down==1 with lateralSibling==0 and affinal false does occur — the
input ["father","son"] produces exactly that state (the combination
up==1, down==1 is not produced only by sibling tokens), and the resolver
then answers with the ambiguous label of rule 9. -/
theorem c1_rule9_state_occurs :
    (scanOf ["father", "son"]).up = 1 ∧ (scanOf ["father", "son"]).down = 1 ∧
      (scanOf ["father", "son"]).lateral = 0 ∧
      (scanOf ["father", "son"]).affinity = false ∧
      (compute_relationship ["father", "son"]).label = "sibling (or self via parent)" ∧
      (compute_relationship ["father", "son"]).type = "blood" := by
  decide

/-- C1 (amended): rule 9 is reachable: every input whose scan accumulates
up==1, down==1, lateralSibling==0 and affinal false is classified by the
rule-9 fallback with label "sibling (or self via parent)" and type blood. -/
theorem c1_amended_rule9_reachable (raw : List String)
    (hu : (scanOf raw).up = 1) (hd : (scanOf raw).down = 1)
    (hl : (scanOf raw).lateral = 0) (haff : (scanOf raw).affinity = false) :
    (compute_relationship raw).label = "sibling (or self via parent)" ∧
      (compute_relationship raw).type = "blood" := by
  have hc1 : checkDirectSpouse (raw.map _normalize_token) = false :=
    checkDirectSpouse_false_of_not_affinity haff
  unfold compute_relationship classify
  rw [if_neg (by simp [hc1]),
      if_neg (by rintro ⟨h, -, -⟩; omega),
      if_neg (by rintro ⟨h, -, -⟩; omega),
      if_neg (by rintro ⟨-, -, h, -⟩; omega),
      if_neg (by rintro ⟨h, -, -⟩; omega),
      if_neg (by rintro ⟨-, h, -⟩; omega),
      if_neg (by rintro ⟨h, -, -⟩; omega),
      if_neg (by intro h; simp [haff] at h),
      if_pos ⟨hu, hd, haff⟩]
  exact ⟨rfl, rfl⟩

/-- C1 (witness): the amended rule-9 reachability applied at the concrete
input ["father","son"]. -/
theorem c1_amended_rule9_reachable_witness :
    ((scanOf ["father", "son"]).up = 1 ∧ (scanOf ["father", "son"]).down = 1 ∧
        (scanOf ["father", "son"]).lateral = 0 ∧
        (scanOf ["father", "son"]).affinity = false) ∧
      (compute_relationship ["father", "son"]).label = "sibling (or self via parent)" ∧
      (compute_relationship ["father", "son"]).type = "blood" :=
  ⟨⟨by decide, by decide, by decide, by decide⟩,
    c1_amended_rule9_reachable ["father", "son"] (by decide) (by decide) (by decide) (by decide)⟩

/-- C2 (counterexample): the claimed scan state for
["spouse","brother","wife"] is wrong: the conjunction stated by the claim
fails because the scan does not yield up=0 and down=0 (the brother step
increments both counters). -/
theorem c2_scan_state_counterexample :
    ¬ ((scanOf ["spouse", "brother", "wife"]).affinity = true ∧
        (scanOf ["spouse", "brother", "wife"]).up = 0 ∧
        (scanOf ["spouse", "brother", "wife"]).down = 0 ∧
        checkSibLast (["spouse", "brother", "wife"].map _normalize_token) = false ∧
        (compute_relationship ["spouse", "brother", "wife"]).label = "no direct relation" ∧
        (compute_relationship ["spouse", "brother", "wife"]).type = "none") := by
  decide

/-- C2 (amended): for ["spouse","brother","wife"] the scan yields
affinal=true with up=1, down=1 and lateralSibling=1, the last token is not
a sibling-type token, and the result has label "no direct relation" and
type "none". -/
theorem c2_amended_multi_affinal_dead_end :
    (scanOf ["spouse", "brother", "wife"]).affinity = true ∧
      (scanOf ["spouse", "brother", "wife"]).up = 1 ∧
      (scanOf ["spouse", "brother", "wife"]).down = 1 ∧
      (scanOf ["spouse", "brother", "wife"]).lateral = 1 ∧
      checkSibLast (["spouse", "brother", "wife"].map _normalize_token) = false ∧
      (compute_relationship ["spouse", "brother", "wife"]).label = "no direct relation" ∧
      (compute_relationship ["spouse", "brother", "wife"]).type = "none" := by
  decide

/-- C3: any two inputs whose scans agree on (up, down, lateralSibling,
affinal) and on the two last-token checks receive the same result type:
no other intermediate state of the scan influences the type. -/
theorem c3_type_determined_by_shape (raw₁ raw₂ : List String)
    (hup : (scanOf raw₁).up = (scanOf raw₂).up)
    (hdown : (scanOf raw₁).down = (scanOf raw₂).down)
    (hlat : (scanOf raw₁).lateral = (scanOf raw₂).lateral)
    (haff : (scanOf raw₁).affinity = (scanOf raw₂).affinity)
    (hds : checkDirectSpouse (raw₁.map _normalize_token) =
      checkDirectSpouse (raw₂.map _normalize_token))
    (hsl : checkSibLast (raw₁.map _normalize_token) =
      checkSibLast (raw₂.map _normalize_token)) :
    (compute_relationship raw₁).type = (compute_relationship raw₂).type := by
  unfold compute_relationship
  rw [classify_type, classify_type, hup, hdown, hlat, haff, hds, hsl]

/-- C3 (witness): the type-determinacy theorem applied to the concrete
inputs ["mother"] and ["dad"], whose scans agree on the four-tuple and on
the last-token checks. -/
theorem c3_type_determined_by_shape_witness :
    ((scanOf ["mother"]).up = (scanOf ["dad"]).up ∧
        (scanOf ["mother"]).down = (scanOf ["dad"]).down ∧
        (scanOf ["mother"]).lateral = (scanOf ["dad"]).lateral ∧
        (scanOf ["mother"]).affinity = (scanOf ["dad"]).affinity ∧
        checkDirectSpouse (["mother"].map _normalize_token) =
          checkDirectSpouse (["dad"].map _normalize_token) ∧
        checkSibLast (["mother"].map _normalize_token) =
          checkSibLast (["dad"].map _normalize_token)) ∧
      (compute_relationship ["mother"]).type = (compute_relationship ["dad"]).type :=
  ⟨⟨by decide, by decide, by decide, by decide, by decide, by decide⟩,
    c3_type_determined_by_shape ["mother"] ["dad"] (by decide) (by decide) (by decide)
      (by decide) (by decide) (by decide)⟩

/-- C4: the resolver is total and well-formed: every input (the empty one
and unrecognized tokens included) yields a result whose type is one of
blood, affinal, none, and the empty input falls through to the rule-10
default with label "unknown / ambiguous" and type "none". -/
theorem c4_total_wellformed :
    (∀ raw : List String,
        (compute_relationship raw).type = "blood" ∨
          (compute_relationship raw).type = "affinal" ∨
          (compute_relationship raw).type = "none") ∧
      compute_relationship [] =
        { label := "unknown / ambiguous", type := "none",
          explanation := "The selected path doesn\x27t map to a common English kinship term.",
          canonical := "\x7b\x27up\x27: 0, \x27down\x27: 0, \x27lateral\x27: 0, \x27affinal\x27: False\x7d" } := by
  refine ⟨fun raw => ?_, by decide⟩
  unfold compute_relationship
  rw [classify_type]
  exact typeOfShape_mem _ _ _ _ _ _

/-- C5: whenever the scan yields up≥2, down≥2 and no marriage edge, the
result is a blood cousin label with degree min(up,down)−1 rendered through
the ordinal table (1–6, otherwise the decimal with "th"), and removal
|up−down| appended as " {removal} time(s) removed" exactly when positive,
with "time" pluralized exactly when removal is not 1. -/
theorem c5_cousins_label (raw : List String)
    (h2u : 2 ≤ (scanOf raw).up) (h2d : 2 ≤ (scanOf raw).down)
    (haff : (scanOf raw).affinity = false) :
    (compute_relationship raw).type = "blood" ∧
      (compute_relationship raw).label =
        (if (((scanOf raw).up : Int) - ((scanOf raw).down : Int)).natAbs = 0 then
          (if Nat.min (scanOf raw).up (scanOf raw).down - 1 = 1 then "first"
            else if Nat.min (scanOf raw).up (scanOf raw).down - 1 = 2 then "second"
            else if Nat.min (scanOf raw).up (scanOf raw).down - 1 = 3 then "third"
            else if Nat.min (scanOf raw).up (scanOf raw).down - 1 = 4 then "fourth"
            else if Nat.min (scanOf raw).up (scanOf raw).down - 1 = 5 then "fifth"
            else if Nat.min (scanOf raw).up (scanOf raw).down - 1 = 6 then "sixth"
            else Nat.repr (Nat.min (scanOf raw).up (scanOf raw).down - 1) ++ "th") ++ " cousin"
        else
          (if Nat.min (scanOf raw).up (scanOf raw).down - 1 = 1 then "first"
            else if Nat.min (scanOf raw).up (scanOf raw).down - 1 = 2 then "second"
            else if Nat.min (scanOf raw).up (scanOf raw).down - 1 = 3 then "third"
            else if Nat.min (scanOf raw).up (scanOf raw).down - 1 = 4 then "fourth"
            else if Nat.min (scanOf raw).up (scanOf raw).down - 1 = 5 then "fifth"
            else if Nat.min (scanOf raw).up (scanOf raw).down - 1 = 6 then "sixth"
            else Nat.repr (Nat.min (scanOf raw).up (scanOf raw).down - 1) ++ "th") ++ " cousin " ++
            Nat.repr (((scanOf raw).up : Int) - ((scanOf raw).down : Int)).natAbs ++ " " ++
            (if (((scanOf raw).up : Int) - ((scanOf raw).down : Int)).natAbs = 1 then "time"
              else "times") ++ " removed") := by
  have hc1 : checkDirectSpouse (raw.map _normalize_token) = false :=
    checkDirectSpouse_false_of_not_affinity haff
  unfold compute_relationship classify
  rw [if_neg (by simp [hc1]),
      if_neg (by rintro ⟨h, -, -⟩; omega),
      if_neg (by rintro ⟨h, -, -⟩; omega),
      if_neg (by rintro ⟨h, -, -, -⟩; omega),
      if_neg (by rintro ⟨-, h, -⟩; omega),
      if_neg (by rintro ⟨h, -, -⟩; omega),
      if_pos ⟨h2u, h2d, haff⟩]
  refine ⟨rfl, ?_⟩
  simp only [ordinalsGet, _pluralize]
  rfl

/-- C5 (witness): the cousin theorem applied at
["father","father","father","son","son"], giving the expected label
"first cousin 1 time removed". -/
theorem c5_cousins_label_witness :
    (2 ≤ (scanOf ["father", "father", "father", "son", "son"]).up ∧
        2 ≤ (scanOf ["father", "father", "father", "son", "son"]).down ∧
        (scanOf ["father", "father", "father", "son", "son"]).affinity = false) ∧
      (compute_relationship ["father", "father", "father", "son", "son"]).type = "blood" ∧
      (compute_relationship ["father", "father", "father", "son", "son"]).label =
        "first cousin 1 time removed" := by
  have h := c5_cousins_label ["father", "father", "father", "son", "son"]
    (by decide) (by decide) (by decide)
  refine ⟨⟨by decide, by decide, by decide⟩, h.1, ?_⟩
  rw [h.2]
  decide

/-- C6: whenever the scan yields down==0, up>0 and no marriage edge, the
result is a blood ancestor label gendered over the father/mother/parent
stems: parent form at up=1, grandparent form at up=2, and "great-"
repeated up−2 times before the grandparent form beyond that. -/
theorem c6_ancestor_label (raw : List String)
    (hd : (scanOf raw).down = 0) (hu : 0 < (scanOf raw).up)
    (haff : (scanOf raw).affinity = false) :
    (compute_relationship raw).type = "blood" ∧
      (compute_relationship raw).label =
        (if (scanOf raw).up = 1 then
          gendered (scanOf raw).finalGender "father" "mother" "parent"
        else if (scanOf raw).up = 2 then
          gendered (scanOf raw).finalGender "grandfather" "grandmother" "grandparent"
        else
          gendered (scanOf raw).finalGender
            (strRepeat ((scanOf raw).up - 2) "great-" ++ "grandfather")
            (strRepeat ((scanOf raw).up - 2) "great-" ++ "grandmother")
            (strRepeat ((scanOf raw).up - 2) "great-" ++ "grandparent")) := by
  have hc1 : checkDirectSpouse (raw.map _normalize_token) = false :=
    checkDirectSpouse_false_of_not_affinity haff
  unfold compute_relationship classify
  rw [if_neg (by simp [hc1]), if_pos ⟨hd, hu, haff⟩]
  exact ⟨rfl, rfl⟩

/-- C6 (witness): the ancestor theorem applied at
["father","father","father"], giving "great-grandfather", type blood. -/
theorem c6_ancestor_label_witness :
    ((scanOf ["father", "father", "father"]).down = 0 ∧
        0 < (scanOf ["father", "father", "father"]).up ∧
        (scanOf ["father", "father", "father"]).affinity = false) ∧
      (compute_relationship ["father", "father", "father"]).type = "blood" ∧
      (compute_relationship ["father", "father", "father"]).label = "great-grandfather" := by
  have h := c6_ancestor_label ["father", "father", "father"] (by decide) (by decide) (by decide)
  refine ⟨⟨by decide, by decide, by decide⟩, h.1, ?_⟩
  rw [h.2]
  decide

/-- C7: whenever the scan yields up≥2, down==1 and no marriage edge, the
result is a blood uncle/aunt label with gen = up−1: gendered uncle/aunt at
gen=1, and "great-" repeated gen−1 times before granduncle/grandaunt
beyond that. -/
theorem c7_uncle_aunt_label (raw : List String)
    (h2u : 2 ≤ (scanOf raw).up) (hd1 : (scanOf raw).down = 1)
    (haff : (scanOf raw).affinity = false) :
    (compute_relationship raw).type = "blood" ∧
      (compute_relationship raw).label =
        (if (scanOf raw).up - 1 = 1 then
          gendered (scanOf raw).finalGender "uncle" "aunt" "aunt/uncle"
        else
          gendered (scanOf raw).finalGender
            (strRepeat ((scanOf raw).up - 1 - 1) "great-" ++ "granduncle")
            (strRepeat ((scanOf raw).up - 1 - 1) "great-" ++ "grandaunt")
            (strRepeat ((scanOf raw).up - 1 - 1) "great-" ++ "grand-aunt/uncle")) := by
  have hc1 : checkDirectSpouse (raw.map _normalize_token) = false :=
    checkDirectSpouse_false_of_not_affinity haff
  unfold compute_relationship classify
  rw [if_neg (by simp [hc1]),
      if_neg (by rintro ⟨h, -, -⟩; omega),
      if_neg (by rintro ⟨h, -, -⟩; omega),
      if_neg (by rintro ⟨h, -, -, -⟩; omega),
      if_pos ⟨h2u, hd1, haff⟩]
  exact ⟨rfl, rfl⟩

/-- C7 (witness): the uncle/aunt theorem applied at ["mother","brother"],
giving "uncle", type blood. -/
theorem c7_uncle_aunt_label_witness :
    (2 ≤ (scanOf ["mother", "brother"]).up ∧ (scanOf ["mother", "brother"]).down = 1 ∧
        (scanOf ["mother", "brother"]).affinity = false) ∧
      (compute_relationship ["mother", "brother"]).type = "blood" ∧
      (compute_relationship ["mother", "brother"]).label = "uncle" := by
  have h := c7_uncle_aunt_label ["mother", "brother"] (by decide) (by decide) (by decide)
  refine ⟨⟨by decide, by decide, by decide⟩, h.1, ?_⟩
  rw [h.2]
  decide

/-- C8: token normalization is idempotent for every string, and every
already-canonical token is returned unchanged. -/
theorem c8_normalize_idempotent :
    (∀ s : String, _normalize_token (_normalize_token s) = _normalize_token s) ∧
      (["mother", "father", "parent", "son", "daughter", "child", "brother",
          "sister", "sibling", "spouse", "husband", "wife"].all
        fun c => _normalize_token c == c) = true := by
  refine ⟨fun s => ?_, by decide⟩
  cases h : aliases.lookup (pyStripLower s) with
  | some c =>
    have h1 : _normalize_token s = c := by unfold _normalize_token; rw [h]
    rw [h1]
    exact aliases_values_fixed _ (mem_of_lookup_eq_some h)
  | none =>
    have h1 : _normalize_token s = pyStripLower s := by unfold _normalize_token; rw [h]
    rw [h1]
    unfold _normalize_token
    rw [pyStripLower_pyStripLower, h]

/-- C9: the final gender equals the gender of the last processed token
that carries or resets gender (unrecognized tokens never change it), and
the gendered helper selects the masculine or feminine form by that gender,
falling back to the neutral form when it is unknown. -/
theorem c9_final_gender_last_carrier :
    (∀ steps : List String, (scanSteps steps).finalGender = lastGenderSpec steps) ∧
      (∀ m f n : String,
        gendered (some Gender.male) m f n = m ∧ gendered (some Gender.female) m f n = f ∧
          gendered none m f n = n) := by
  refine ⟨fun steps => ?_, fun m f n => ⟨rfl, rfl, rfl⟩⟩
  unfold scanSteps lastGenderSpec
  rw [foldl_finalGender]
  cases hx : (steps.filter fun t => decide (t ∈ genderCarriers)).getLast? <;> rfl

/-- C10: the last-token checks run on the normalized sequence: an input
longer than one token that contains a spouse-type token (after
normalization) and whose final raw token normalizes to a sibling-type
token is classified as a gendered sibling-in-law with type affinal. -/
theorem c10_sibling_in_law_normalized (raw : List String)
    (hlen : 1 < raw.length)
    (hsp : ∃ s ∈ raw, isSpouseTok (_normalize_token s) = true)
    (hsib : checkSibLast (raw.map _normalize_token) = true) :
    (compute_relationship raw).type = "affinal" ∧
      (compute_relationship raw).label =
        gendered (scanOf raw).finalGender "brother-in-law" "sister-in-law" "sibling-in-law" := by
  obtain ⟨s, hs, hsp'⟩ := hsp
  have haff : (scanOf raw).affinity = true :=
    affinity_of_mem_spouse (List.mem_map_of_mem _ hs) hsp'
  have hne : raw.length ≠ 1 := by omega
  have hc1 : checkDirectSpouse (raw.map _normalize_token) = false := by
    simp [checkDirectSpouse, List.length_map, hne]
  unfold compute_relationship classify
  rw [if_neg (by simp [hc1]),
      if_neg (by rintro ⟨-, -, h⟩; simp [haff] at h),
      if_neg (by rintro ⟨-, -, h⟩; simp [haff] at h),
      if_neg (by rintro ⟨-, -, -, h⟩; simp [haff] at h),
      if_neg (by rintro ⟨-, -, h⟩; simp [haff] at h),
      if_neg (by rintro ⟨-, -, h⟩; simp [haff] at h),
      if_neg (by rintro ⟨-, -, h⟩; simp [haff] at h),
      if_pos haff, if_pos hsib]
  exact ⟨rfl, rfl⟩

/-- C10 (witness): the sibling-in-law theorem applied at
["spouse", " SIS "], whose final raw token normalizes to "sister",
giving "sister-in-law", type affinal. -/
theorem c10_sibling_in_law_normalized_witness :
    (1 < (["spouse", " SIS "] : List String).length ∧
        isSpouseTok (_normalize_token "spouse") = true ∧
        checkSibLast ((["spouse", " SIS "] : List String).map _normalize_token) = true) ∧
      (compute_relationship ["spouse", " SIS "]).type = "affinal" ∧
      (compute_relationship ["spouse", " SIS "]).label = "sister-in-law" := by
  have h := c10_sibling_in_law_normalized ["spouse", " SIS "] (by decide)
    ⟨"spouse", by decide, by decide⟩ (by decide)
  refine ⟨⟨by decide, by decide, by decide⟩, h.1, ?_⟩
  rw [h.2]
  decide

end Kinship
